import Mathlib

/-!
Verification of the fable-api concurrency-control and restore-orchestration
subsystem: shallow embedding of the save-lock manager, the seed-lock
coordinator, the restore orchestrator, the convergence poll, the status
store, and the filter-value escaping helper, together with theorems about
the claims of the specification.
-/

namespace Fable

/-! ## Filter value escaping (src/api/screenplays/helpers.js, statusStore.js) -/

/-- One global single-character replacement pass, as performed by the
JavaScript `String.replace` with a one-character global regex: every
occurrence of `c` is replaced by the character sequence `r`; replacement
text is never rescanned. -/
def replaceChar (c : Char) (r : List Char) : List Char → List Char
  | [] => []
  | x :: xs => if x = c then r ++ replaceChar c r xs else x :: replaceChar c r xs

/-- Character-list core of `escapeFilterValue` from
src/api/screenplays/helpers.js lines 21-25 (identical copies live in
statusStore.js and the restore handlers): first double every backslash,
then prefix every double quote with a backslash. -/
def escFV (s : List Char) : List Char :=
  replaceChar '"' ['\\', '"'] (replaceChar '\\' ['\\', '\\'] s)

/-- `escapeFilterValue` at the string level. -/
def escapeFilterValue (s : String) : String :=
  String.mk (escFV s.data)

/-- Per-character encoding; `escFV` is proved equal to flat-mapping this. -/
def encFV (c : Char) : List Char :=
  if c = '\\' then ['\\', '\\'] else if c = '"' then ['\\', '"'] else [c]

/-- Decoder reversing the two substitutions of `escFV`: a backslash pair
decodes to a backslash, a backslash-quote pair decodes to a quote, and any
other character is passed through. -/
def unescFV : List Char → List Char
  | [] => []
  | [x] => [x]
  | x :: y :: xs =>
    if x = '\\' ∧ (y = '\\' ∨ y = '"') then y :: unescFV xs
    else x :: unescFV (y :: xs)

/-- The un-escape at the string level. -/
def unescapeFilterValue (s : String) : String :=
  String.mk (unescFV s.data)

/-- Scanning left to right and skipping backslash-escape pairs, no bare
double quote occurs. -/
def noBareQuote : List Char → Bool
  | [] => true
  | x :: xs =>
    if x = '\\' then
      match xs with
      | [] => true
      | _ :: ys => noBareQuote ys
    else if x = '"' then false
    else noBareQuote xs

/-- `buildStatusFilter` from src/api/screenplays/save-lock.js lines 12-14:
the quoted exact-match filter sent to the record store. -/
def buildStatusFilter (screenplayId : String) : String :=
  "screenplayId = \"" ++ escapeFilterValue screenplayId ++ "\""

theorem replaceChar_append (c : Char) (r a b : List Char) :
    replaceChar c r (a ++ b) = replaceChar c r a ++ replaceChar c r b := by
  induction a with
  | nil => rfl
  | cons x xs ih =>
    by_cases h : x = c <;> simp [replaceChar, h, ih]

theorem escFV_cons (c : Char) (s : List Char) :
    escFV (c :: s) = encFV c ++ escFV s := by
  by_cases h1 : c = '\\'
  · subst h1
    show replaceChar '"' ['\\', '"']
        (replaceChar '\\' ['\\', '\\'] ('\\' :: s)) = _
    rw [show replaceChar '\\' ['\\', '\\'] ('\\' :: s) =
        ['\\', '\\'] ++ replaceChar '\\' ['\\', '\\'] s from by
          simp [replaceChar]]
    rw [replaceChar_append]
    simp [replaceChar, encFV, escFV]
  · by_cases h2 : c = '"'
    · subst h2
      show replaceChar '"' ['\\', '"']
          (replaceChar '\\' ['\\', '\\'] ('"' :: s)) = _
      rw [show replaceChar '\\' ['\\', '\\'] ('"' :: s) =
          '"' :: replaceChar '\\' ['\\', '\\'] s from by
            simp [replaceChar]]
      simp [replaceChar, encFV, escFV]
    · show replaceChar '"' ['\\', '"']
          (replaceChar '\\' ['\\', '\\'] (c :: s)) = _
      rw [show replaceChar '\\' ['\\', '\\'] (c :: s) =
          c :: replaceChar '\\' ['\\', '\\'] s from by
            simp [replaceChar, h1]]
      simp [replaceChar, encFV, escFV, h1, h2]

theorem unescFV_cons_of_ne (c : Char) (t : List Char) (h : c ≠ '\\') :
    unescFV (c :: t) = c :: unescFV t := by
  cases t with
  | nil => rfl
  | cons y ys => simp [unescFV, h]

theorem unescFV_escFV (s : List Char) : unescFV (escFV s) = s := by
  induction s with
  | nil => rfl
  | cons c s ih =>
    rw [escFV_cons]
    by_cases h1 : c = '\\'
    · subst h1
      simp [encFV, unescFV, ih]
    · by_cases h2 : c = '"'
      · subst h2
        simp [encFV, unescFV, ih]
      · simp only [encFV, if_neg h1, if_neg h2, List.singleton_append]
        rw [unescFV_cons_of_ne c _ h1, ih]

theorem noBareQuote_escFV (s : List Char) : noBareQuote (escFV s) = true := by
  induction s with
  | nil => rfl
  | cons c s ih =>
    rw [escFV_cons]
    by_cases h1 : c = '\\'
    · subst h1
      simpa [encFV, noBareQuote] using ih
    · by_cases h2 : c = '"'
      · subst h2
        simpa [encFV, noBareQuote] using ih
      · simp only [encFV, if_neg h1, if_neg h2, List.singleton_append]
        cases hs : escFV s with
        | nil => simp [noBareQuote, h1, h2]
        | cons z zs =>
          have := ih
          rw [hs] at this
          simp [noBareQuote, h1, h2, this, hs]

/-- Claim C10: escapeFilterValue doubles backslashes and then escapes
double quotes, its output has no unescaped double quote, un-escaping is a
left inverse of escaping, and two distinct screenplay ids never produce
the same quoted filter value. -/
theorem escapeFilterValue_correct :
    (∀ s : String, unescapeFilterValue (escapeFilterValue s) = s) ∧
    (∀ s : String, noBareQuote (escapeFilterValue s).data = true) ∧
    (∀ a b : String, buildStatusFilter a = buildStatusFilter b → a = b) := by
  refine ⟨?_, ?_, ?_⟩
  · intro s
    cases s with
    | mk data =>
      show String.mk (unescFV (escFV data)) = String.mk data
      rw [unescFV_escFV]
  · intro s
    exact noBareQuote_escFV s.data
  · intro a b h
    have hdata : ("screenplayId = \"".data ++ escFV a.data) ++ '"'.toString.data =
        ("screenplayId = \"".data ++ escFV b.data) ++ '"'.toString.data := by
      have h1 := congrArg String.data h
      simpa [buildStatusFilter, escapeFilterValue, String.data_append,
        List.append_assoc] using h1
    have h2 : "screenplayId = \"".data ++ escFV a.data =
        "screenplayId = \"".data ++ escFV b.data :=
      List.append_cancel_right hdata
    have h3 : escFV a.data = escFV b.data := List.append_cancel_left h2
    have h4 : a.data = b.data := by
      have := congrArg unescFV h3
      rwa [unescFV_escFV, unescFV_escFV] at this
    cases a; cases b
    exact congrArg String.mk h4

/-- Witness for claim C10 at a concrete input containing a backslash and a
double quote. -/
theorem escapeFilterValue_correct_witness :
    unescapeFilterValue (escapeFilterValue (String.mk ['a', '\\', '"', 'b'])) =
      String.mk ['a', '\\', '"', 'b'] ∧ ("scr_1" : String) = "scr_1" :=
  ⟨escapeFilterValue_correct.1 _, escapeFilterValue_correct.2.2 "scr_1" "scr_1" rfl⟩

/-! ## Save lock manager (src/api/screenplays/save-lock.js) -/

/-- The stored save lock object written by `handleAcquireLock`;
timestamps are modelled as integer milliseconds (JavaScript compares the
parsed dates numerically). -/
structure SaveLock where
  userId : String
  userName : String
  lockedAt : Int
  lockType : String
  lockExpiry : Int
deriving DecidableEq

/-- `LOCK_EXPIRY_MS` from src/api/screenplays/save-lock.js line 10. -/
def LOCK_EXPIRY_MS : Int := 15000

/-- Responses produced by `handleAcquireLock`: the 409 conflict body
carries the holder name and the lock expiry, the 200 success body carries
the new expiry, and a store failure surfaces as the 500 internal error of
the surrounding handler. -/
inductive AcquireResponse where
  | conflict (status : Nat) (error : String) (lockedBy : String) (lockExpiry : Int)
  | granted (status : Nat) (lockExpiry : Int)
  | internalError (status : Nat)
deriving DecidableEq

/-- Responses produced by `handleReleaseLock`. -/
inductive ReleaseResponse where
  | success (status : Nat)
  | notOwner (status : Nat) (error : String)
deriving DecidableEq

/-- `handleAcquireLock` from src/api/screenplays/save-lock.js lines
205-249, as a function of the current stored lock and the clock. The
`updateOk` flag models whether the record store update succeeds; when it
throws, the surrounding handler catch returns 500 and no lock is written.
Returns the response together with the stored lock after the call. -/
def handleAcquireLock (currentLock : Option SaveLock) (now : Int)
    (userId displayName lockType : String) (updateOk : Bool) :
    AcquireResponse × Option SaveLock :=
  match currentLock with
  | some l =>
    if now < l.lockExpiry then
      (.conflict 409 "lock_conflict" l.userName l.lockExpiry, some l)
    else
      installSaveLock now userId displayName lockType updateOk (some l)
  | none => installSaveLock now userId displayName lockType updateOk none
where
  installSaveLock (now : Int) (userId displayName lockType : String)
      (updateOk : Bool) (prev : Option SaveLock) :
      AcquireResponse × Option SaveLock :=
    let newLock : SaveLock :=
      { userId := userId, userName := displayName, lockedAt := now,
        lockType := lockType, lockExpiry := now + LOCK_EXPIRY_MS }
    if updateOk then (.granted 200 newLock.lockExpiry, some newLock)
    else (.internalError 500, prev)

/-- `handleReleaseLock` from src/api/screenplays/save-lock.js lines
251-280: no lock is an idempotent success, a foreign lock yields the
`not_lock_owner` error with HTTP status 400, an owned lock is cleared. -/
def handleReleaseLock (currentLock : Option SaveLock) (userId : String) :
    ReleaseResponse × Option SaveLock :=
  match currentLock with
  | none => (.success 200, none)
  | some l =>
    if l.userId ≠ userId then
      (.notOwner 400 "not_lock_owner", some l)
    else
      (.success 200, none)

/-- Counterexample to claim C1: releasing a lock held by `u1` as caller
`u2` returns HTTP status 400, not 403 as the claim states. -/
theorem release_not_owner_status_counterexample :
    (handleReleaseLock
        (some { userId := "u1", userName := "User One", lockedAt := 0,
                lockType := "manual", lockExpiry := 15000 }) "u2").1 =
      .notOwner 400 "not_lock_owner" ∧ (400 : Nat) ≠ 403 := by
  exact ⟨rfl, by decide⟩

/-- Claim C1 (amended): releasing the save lock when the caller is not
the owner returns the `not_lock_owner` outcome with HTTP status 400 (not
403) and never mutates the stored lock; releasing as the owner clears the
lock and succeeds; releasing with no lock present succeeds as a no-op. -/
theorem release_lock_semantics (lock? : Option SaveLock) (uid : String) :
    (∀ l, lock? = some l → l.userId ≠ uid →
      handleReleaseLock lock? uid = (.notOwner 400 "not_lock_owner", some l)) ∧
    (∀ l, lock? = some l → l.userId = uid →
      handleReleaseLock lock? uid = (.success 200, none)) ∧
    (lock? = none → handleReleaseLock lock? uid = (.success 200, none)) := by
  refine ⟨?_, ?_, ?_⟩
  · intro l hl hne
    subst hl
    simp [handleReleaseLock, hne]
  · intro l hl heq
    subst hl
    simp [handleReleaseLock, heq]
  · intro hl
    subst hl
    rfl

/-- Witness for claim C1 (amended) at concrete inputs. -/
theorem release_lock_semantics_witness :
    handleReleaseLock
        (some { userId := "u1", userName := "User One", lockedAt := 0,
                lockType := "manual", lockExpiry := 15000 }) "u2" =
      (.notOwner 400 "not_lock_owner",
        some { userId := "u1", userName := "User One", lockedAt := 0,
               lockType := "manual", lockExpiry := 15000 }) ∧
    handleReleaseLock (none : Option SaveLock) "u2" = (.success 200, none) :=
  ⟨(release_lock_semantics _ "u2").1 _ rfl (by decide),
    (release_lock_semantics none "u2").2.2 rfl⟩

/-- Claim C4: an acquire against a lock whose expiry is still in the
future fails with a 409 conflict carrying the holder name and the expiry;
otherwise (no lock, or expiry at or before now, even if never released) a
new lock with expiry exactly `now + 15s` is installed and reported. -/
theorem acquire_lock_semantics (lock? : Option SaveLock) (now : Int)
    (uid name ty : String) :
    (∀ l, lock? = some l → now < l.lockExpiry →
      handleAcquireLock lock? now uid name ty true =
        (.conflict 409 "lock_conflict" l.userName l.lockExpiry, some l)) ∧
    (∀ l, lock? = some l → l.lockExpiry ≤ now →
      handleAcquireLock lock? now uid name ty true =
        (.granted 200 (now + 15000),
          some { userId := uid, userName := name, lockedAt := now,
                 lockType := ty, lockExpiry := now + LOCK_EXPIRY_MS })) ∧
    (lock? = none →
      handleAcquireLock lock? now uid name ty true =
        (.granted 200 (now + 15000),
          some { userId := uid, userName := name, lockedAt := now,
                 lockType := ty, lockExpiry := now + LOCK_EXPIRY_MS })) := by
  refine ⟨?_, ?_, ?_⟩
  · intro l hl hlt
    subst hl
    simp [handleAcquireLock, hlt]
  · intro l hl hle
    subst hl
    have : ¬ now < l.lockExpiry := not_lt.mpr hle
    simp [handleAcquireLock, this, handleAcquireLock.installSaveLock,
      LOCK_EXPIRY_MS]
  · intro hl
    subst hl
    simp [handleAcquireLock, handleAcquireLock.installSaveLock, LOCK_EXPIRY_MS]

/-- Witness for claim C4: a conflict against a live lock, and a fresh
grant over an expired lock, at concrete times. -/
theorem acquire_lock_semantics_witness :
    handleAcquireLock
        (some { userId := "u1", userName := "Alice", lockedAt := 0,
                lockType := "manual", lockExpiry := 15000 }) 10000 "u2" "Bob"
        "manual" true =
      (.conflict 409 "lock_conflict" "Alice" 15000,
        some { userId := "u1", userName := "Alice", lockedAt := 0,
               lockType := "manual", lockExpiry := 15000 }) ∧
    handleAcquireLock
        (some { userId := "u1", userName := "Alice", lockedAt := 0,
                lockType := "manual", lockExpiry := 15000 }) 15000 "u2" "Bob"
        "manual" true =
      (.granted 200 30000,
        some { userId := "u2", userName := "Bob", lockedAt := 15000,
               lockType := "manual", lockExpiry := 30000 }) :=
  ⟨(acquire_lock_semantics _ 10000 "u2" "Bob" "manual").1 _ rfl (by decide),
    (acquire_lock_semantics _ 15000 "u2" "Bob" "manual").2.1 _ rfl (by decide)⟩

/-! ## Restore orchestrator (src/api/screenplays/restore-with-lock.js) -/

/-- The `blockedBy` actor recorded with a restore block. -/
structure Actor where
  userId : Option String
  displayName : String
deriving DecidableEq

/-- Response of `getCurrentFileMetadata`: only the content hash matters
to the orchestrator. -/
structure GhFile where
  sha : Option String
deriving DecidableEq

/-- The commit object inside an `updateScreenplayFile` response. -/
structure CommitInfo where
  sha : Option String
deriving DecidableEq

/-- Response of `updateScreenplayFile` (the content write). -/
structure CommitResult where
  commit : Option CommitInfo
deriving DecidableEq

/-- Outcomes of the external calls the restore handler awaits, in
program order: session destroy, target revision read, head metadata read,
content write, session unblock. An `Except.error` models a rejected
promise (thrown transport or HTTP error). -/
structure RestoreEnv where
  destroy : Except String Unit
  target : Except String String
  head : Except String GhFile
  put : Except String CommitResult
  unblock : Except String Unit

/-- The per-document status fields the restore path reads and writes. -/
structure RestoreStatus where
  hp_restore_blocked : Bool
  hp_restore_blocked_at : Option String
  hp_restore_blocked_by : Option Actor
  lastRestoredAt : Option String
  lastRestoredBy : Option String
  restoredFrom : Option String
  latestRestoredCommitSha : Option String
  latestRestoredCommitSetAt : Option String
  pendingRestoreSha : Option String
deriving DecidableEq

/-- The two status-store writes the restore handler can issue: the
write-ahead block patch (`setScreenplayLock`, line 319) and the single
completion patch (`updateScreenplayMetadata`, lines 369-378) that both
clears the block and records the restored commit sha. -/
inductive RestoreWrite where
  | blockSet (blockedAt : String) (byUser : Option String) (byName : String)
  | completion (latestRestoredCommitSha : Option String)
      (latestRestoredCommitSetAt : Option String)
deriving DecidableEq

/-- HTTP outcome of the restore handler. -/
inductive RestoreHttp where
  | conflict (status : Nat)
  | ok (status : Nat) (latestRestoredCommitSha : Option String)
  | err (status : Nat) (message : String)
deriving DecidableEq

/-- Result of one restore request: the HTTP outcome, the final status
fields, whether the content write reached the source-control host, and
the ordered status-store writes that were issued. -/
structure RestoreResult where
  http : RestoreHttp
  state : RestoreStatus
  contentWritten : Bool
  writes : List RestoreWrite
deriving DecidableEq

/-- The restore handler from src/api/screenplays/restore-with-lock.js
lines 252-408, with request validation already passed. `now` is the
timestamp captured before the try block, `completedAt` the one captured
after the content write. Any `Except.error` among the awaited calls
reaches the catch at line 402 and returns a 500 with the error message;
nothing clears the block on those paths. -/
def restoreHandler (st : RestoreStatus) (env : RestoreEnv)
    (now completedAt : String) (actor : Actor) (revisionSha : String) :
    RestoreResult :=
  if st.hp_restore_blocked then
    { http := .conflict 409, state := st, contentWritten := false, writes := [] }
  else
    let st1 : RestoreStatus :=
      { st with
          hp_restore_blocked := true,
          hp_restore_blocked_at := some now,
          hp_restore_blocked_by := some actor }
    let w1 : RestoreWrite := .blockSet now actor.userId actor.displayName
    match env.destroy with
    | .error e =>
      { http := .err 500 e, state := st1, contentWritten := false, writes := [w1] }
    | .ok _ =>
      match env.target with
      | .error e =>
        { http := .err 500 e, state := st1, contentWritten := false, writes := [w1] }
      | .ok _targetContent =>
        match env.head with
        | .error e =>
          { http := .err 500 e, state := st1, contentWritten := false,
            writes := [w1] }
        | .ok _headFile =>
          match env.put with
          | .error e =>
            { http := .err 500 e, state := st1, contentWritten := false,
              writes := [w1] }
          | .ok commitResult =>
            let latest : Option String := commitResult.commit.bind (·.sha)
            let setAt : Option String :=
              if latest.isSome then some completedAt else none
            let st2 : RestoreStatus :=
              { st1 with
                  hp_restore_blocked := false,
                  hp_restore_blocked_at := none,
                  hp_restore_blocked_by := none,
                  lastRestoredAt := some completedAt,
                  lastRestoredBy := actor.userId,
                  restoredFrom := some revisionSha,
                  latestRestoredCommitSha := latest,
                  latestRestoredCommitSetAt := setAt }
            let w2 : RestoreWrite := .completion latest setAt
            match env.unblock with
            | .error e =>
              { http := .err 500 e, state := st2, contentWritten := true,
                writes := [w1, w2] }
            | .ok _ =>
              { http := .ok 200 latest, state := st2, contentWritten := true,
                writes := [w1, w2] }

/-- A status record with nothing set, used for concrete runs. -/
def emptyStatus : RestoreStatus :=
  { hp_restore_blocked := false, hp_restore_blocked_at := none,
    hp_restore_blocked_by := none, lastRestoredAt := none,
    lastRestoredBy := none, restoredFrom := none,
    latestRestoredCommitSha := none, latestRestoredCommitSetAt := none,
    pendingRestoreSha := none }

/-- A concrete environment whose session-destroy call fails while every
other external call would succeed. -/
def destroyFailEnv : RestoreEnv :=
  { destroy := .error "HP destroy failed (500): boom",
    target := .ok "INT. ROOM - DAY",
    head := .ok { sha := some "headsha" },
    put := .ok { commit := some { sha := some "newsha" } },
    unblock := .ok () }

/-- Counterexample to claim C2: when the session-destroy call fails, the
restore aborts with a 500 and never writes the restored content, instead
of proceeding as the claim states. -/
theorem destroy_failure_aborts_counterexample :
    (restoreHandler emptyStatus destroyFailEnv "t0" "t1"
        { userId := some "u1", displayName := "Alice" } "rev1").contentWritten
        = false ∧
    (restoreHandler emptyStatus destroyFailEnv "t0" "t1"
        { userId := some "u1", displayName := "Alice" } "rev1").http =
      .err 500 "HP destroy failed (500): boom" := by
  exact ⟨rfl, rfl⟩

/-- Claim C2 (amended): failure of the call that evicts active realtime
sessions aborts the restore: the handler returns a 500-class error with
the error message, leaves the restore block set, and does not read the
target revision or write the restored content. -/
theorem destroy_failure_aborts (st : RestoreStatus) (env : RestoreEnv)
    (now completedAt : String) (actor : Actor) (revisionSha : String)
    (e : String) (hb : st.hp_restore_blocked = false)
    (hd : env.destroy = .error e) :
    restoreHandler st env now completedAt actor revisionSha =
      { http := .err 500 e,
        state :=
          { st with
              hp_restore_blocked := true,
              hp_restore_blocked_at := some now,
              hp_restore_blocked_by := some actor },
        contentWritten := false,
        writes := [.blockSet now actor.userId actor.displayName] } := by
  simp [restoreHandler, hb, hd]

/-- Witness for claim C2 (amended) on the concrete failing environment. -/
theorem destroy_failure_aborts_witness :
    restoreHandler emptyStatus destroyFailEnv "t0" "t1"
        { userId := some "u1", displayName := "Alice" } "rev1" =
      { http := .err 500 "HP destroy failed (500): boom",
        state :=
          { emptyStatus with
              hp_restore_blocked := true,
              hp_restore_blocked_at := some "t0",
              hp_restore_blocked_by :=
                some { userId := some "u1", displayName := "Alice" } },
        contentWritten := false,
        writes := [.blockSet "t0" (some "u1") "Alice"] } :=
  destroy_failure_aborts emptyStatus destroyFailEnv "t0" "t1"
    { userId := some "u1", displayName := "Alice" } "rev1"
    "HP destroy failed (500): boom" rfl rfl

/-- Claim C3: a failure in any content-rewrite step (target revision
read, head metadata read, or revision write) makes the restore return a
500-class error with the block flag left set (fails closed), while a
failed save-lock store update returns 500 with no lock recorded (fails
open). -/
theorem restore_fails_closed_lock_fails_open :
    (∀ (st : RestoreStatus) (env : RestoreEnv) (now completedAt : String)
        (actor : Actor) (revisionSha : String),
      st.hp_restore_blocked = false →
      env.destroy = .ok () →
      ((∃ e, env.target = .error e) ∨ (∃ e, env.head = .error e) ∨
        (∃ e, env.put = .error e)) →
      ∃ m, (restoreHandler st env now completedAt actor revisionSha).http =
          .err 500 m ∧
        (restoreHandler st env now completedAt actor
            revisionSha).state.hp_restore_blocked = true ∧
        (restoreHandler st env now completedAt actor
            revisionSha).contentWritten = false) ∧
    (∀ (lock? : Option SaveLock) (now : Int) (uid name ty : String),
      (∀ l, lock? = some l → l.lockExpiry ≤ now) →
      handleAcquireLock lock? now uid name ty false =
        (.internalError 500, lock?)) := by
  constructor
  · intro st env now completedAt actor revisionSha hb hd herr
    rcases herr with ⟨e, he⟩ | ⟨e, he⟩ | ⟨e, he⟩
    · exact ⟨e, by simp [restoreHandler, hb, hd, he]⟩
    · cases ht : env.target with
      | error e2 => exact ⟨e2, by simp [restoreHandler, hb, hd, ht]⟩
      | ok c => exact ⟨e, by simp [restoreHandler, hb, hd, ht, he]⟩
    · cases ht : env.target with
      | error e2 => exact ⟨e2, by simp [restoreHandler, hb, hd, ht]⟩
      | ok c =>
        cases hh : env.head with
        | error e2 => exact ⟨e2, by simp [restoreHandler, hb, hd, ht, hh]⟩
        | ok f => exact ⟨e, by simp [restoreHandler, hb, hd, ht, hh, he]⟩
  · intro lock? now uid name ty hexp
    cases lock? with
    | none => rfl
    | some l =>
      have hle : l.lockExpiry ≤ now := hexp l rfl
      have : ¬ now < l.lockExpiry := not_lt.mpr hle
      simp [handleAcquireLock, this, handleAcquireLock.installSaveLock]

/-- A concrete environment whose content write fails after the reads
succeed. -/
def putFailEnv : RestoreEnv :=
  { destroy := .ok (),
    target := .ok "INT. ROOM - DAY",
    head := .ok { sha := some "headsha" },
    put := .error "Failed to update screenplay content (409): stale",
    unblock := .ok () }

/-- Witness for claim C3: a failed content write yields a 500 with the
block still set, and a failed lock-store update records no lock. -/
theorem restore_fails_closed_lock_fails_open_witness :
    (∃ m, (restoreHandler emptyStatus putFailEnv "t0" "t1"
        { userId := some "u1", displayName := "Alice" } "rev1").http =
          .err 500 m ∧
      (restoreHandler emptyStatus putFailEnv "t0" "t1"
          { userId := some "u1", displayName := "Alice" }
          "rev1").state.hp_restore_blocked = true ∧
      (restoreHandler emptyStatus putFailEnv "t0" "t1"
          { userId := some "u1", displayName := "Alice" }
          "rev1").contentWritten = false) ∧
    handleAcquireLock (none : Option SaveLock) 0 "u1" "Alice" "manual" false =
      (.internalError 500, none) :=
  ⟨restore_fails_closed_lock_fails_open.1 emptyStatus putFailEnv "t0" "t1"
      { userId := some "u1", displayName := "Alice" } "rev1" rfl rfl
      (Or.inr (Or.inr ⟨_, rfl⟩)),
    restore_fails_closed_lock_fails_open.2 none 0 "u1" "Alice" "manual"
      (fun l hl => by cases hl)⟩

/-- Claim C8: on the success path the handler issues exactly two store
writes, the block patch and then one single completion patch that both
records `latestRestoredCommitSha` and clears the restore block, and this
completion patch together with the resulting state is the same whatever
the outcome of the subsequent session unblock call. -/
theorem restore_completion_single_update (st : RestoreStatus)
    (env : RestoreEnv) (now completedAt : String) (actor : Actor)
    (revisionSha : String) (content : String) (headFile : GhFile)
    (cr : CommitResult) (hb : st.hp_restore_blocked = false)
    (hd : env.destroy = .ok ()) (ht : env.target = .ok content)
    (hh : env.head = .ok headFile) (hp : env.put = .ok cr) :
    (restoreHandler st env now completedAt actor revisionSha).writes =
      [.blockSet now actor.userId actor.displayName,
        .completion (cr.commit.bind (·.sha))
          (if (cr.commit.bind (·.sha)).isSome then some completedAt else none)] ∧
    (restoreHandler st env now completedAt actor
        revisionSha).state.hp_restore_blocked = false ∧
    (restoreHandler st env now completedAt actor
        revisionSha).state.latestRestoredCommitSha = cr.commit.bind (·.sha) := by
  cases hu : env.unblock with
  | error e =>
    refine ⟨?_, ?_, ?_⟩ <;> simp [restoreHandler, hb, hd, ht, hh, hp, hu]
  | ok u =>
    refine ⟨?_, ?_, ?_⟩ <;> simp [restoreHandler, hb, hd, ht, hh, hp, hu]

/-- A concrete all-success environment except that the final session
unblock call fails. -/
def unblockFailEnv : RestoreEnv :=
  { destroy := .ok (),
    target := .ok "INT. ROOM - DAY",
    head := .ok { sha := some "headsha" },
    put := .ok { commit := some { sha := some "newsha" } },
    unblock := .error "HP unblock failed (500): boom" }

/-- Witness for claim C8: even when the final unblock call fails, the
single completion patch was issued and the final state has the block
cleared and the restored sha recorded. -/
theorem restore_completion_single_update_witness :
    (restoreHandler emptyStatus unblockFailEnv "t0" "t1"
        { userId := some "u1", displayName := "Alice" } "rev1").writes =
      [.blockSet "t0" (some "u1") "Alice",
        .completion (some "newsha") (some "t1")] ∧
    (restoreHandler emptyStatus unblockFailEnv "t0" "t1"
        { userId := some "u1", displayName := "Alice" }
        "rev1").state.hp_restore_blocked = false ∧
    (restoreHandler emptyStatus unblockFailEnv "t0" "t1"
        { userId := some "u1", displayName := "Alice" }
        "rev1").state.latestRestoredCommitSha = some "newsha" :=
  restore_completion_single_update emptyStatus unblockFailEnv "t0" "t1"
    { userId := some "u1", displayName := "Alice" } "rev1" "INT. ROOM - DAY"
    { sha := some "headsha" } { commit := some { sha := some "newsha" } }
    rfl rfl rfl rfl rfl

/-! ## Convergence poll (scheduleRestoreShaCleanup,
src/api/screenplays/restore-with-lock.js lines 83-178) -/

/-- Default poll interval in milliseconds (line 83-85). -/
def RESTORE_SHA_POLL_INTERVAL_MS : Nat := 10000

/-- Default maximum number of poll attempts (line 86-88). -/
def RESTORE_SHA_MAX_ATTEMPTS : Nat := 6

/-- Result of running the cleanup job to completion: how many head
metadata polls were made, the final status fields, and whether the head
was seen to match the restored commit. -/
structure PollResult where
  polls : Nat
  state : RestoreStatus
  synced : Bool
deriving DecidableEq

/-- The patch issued by `attemptClear` on both the match path (lines
127-130) and the timeout path (lines 145-148): it nulls only
`latestRestoredCommitSha` and `latestRestoredCommitSetAt`. -/
def clearShaMarkers (st : RestoreStatus) : RestoreStatus :=
  { st with
      latestRestoredCommitSha := none,
      latestRestoredCommitSetAt := none }

/-- The recursive `attemptClear` loop of `scheduleRestoreShaCleanup`.
`heads k` is what poll number `k` observes: `some sha` is the head sha
returned by `getCurrentFileMetadata`, `none` is a thrown transport error
(caught and logged at lines 135-140, then falling through to the attempt
counter like a mismatch). The JS attempts counter is encoded by
`remaining = maxAttempts - attempts`: the JS timeout test
`attempts + 1 >= maxAttempts` after the increment is exactly
`remaining ≤ 1`, and each rescheduled poll decrements `remaining`. -/
def attemptClearLoop (commitSha : String) (heads : Nat → Option String)
    (st : RestoreStatus) : Nat → Nat → PollResult
  | k, remaining =>
    if heads k = some commitSha then
      { polls := 1, state := clearShaMarkers st, synced := true }
    else
      match remaining with
      | 0 => { polls := 1, state := clearShaMarkers st, synced := false }
      | 1 => { polls := 1, state := clearShaMarkers st, synced := false }
      | r + 2 =>
        let next := attemptClearLoop commitSha heads st (k + 1) (r + 1)
        { polls := next.polls + 1, state := next.state, synced := next.synced }

/-- `scheduleRestoreShaCleanup` run to completion: the loop starts at
poll 0 with the attempts counter at 0, i.e. `remaining = maxAttempts`. -/
def scheduleRestoreShaCleanup (maxAttempts : Nat) (commitSha : String)
    (heads : Nat → Option String) (st : RestoreStatus) : PollResult :=
  attemptClearLoop commitSha heads st 0 maxAttempts

theorem attemptClearLoop_polls_le (commitSha : String)
    (heads : Nat → Option String) (st : RestoreStatus) (k remaining : Nat) :
    (attemptClearLoop commitSha heads st k remaining).polls ≤
      max remaining 1 := by
  induction remaining using Nat.strong_induction_on generalizing k with
  | _ remaining ih =>
    rw [attemptClearLoop.eq_def]
    by_cases h : heads k = some commitSha
    · simp only [h, if_true]
      show 1 ≤ max remaining 1
      omega
    · simp only [h, if_false]
      match remaining with
      | 0 => exact le_refl 1
      | 1 => exact le_refl 1
      | r + 2 =>
        have hih := ih (r + 1) (by omega) (k + 1)
        show (attemptClearLoop commitSha heads st (k + 1) (r + 1)).polls + 1 ≤
          max (r + 2) 1
        omega

theorem attemptClearLoop_state (commitSha : String)
    (heads : Nat → Option String) (st : RestoreStatus) (k remaining : Nat) :
    (attemptClearLoop commitSha heads st k remaining).state =
      clearShaMarkers st := by
  induction remaining using Nat.strong_induction_on generalizing k with
  | _ remaining ih =>
    rw [attemptClearLoop.eq_def]
    by_cases h : heads k = some commitSha
    · simp [h]
    · simp only [h, if_false]
      match remaining with
      | 0 => rfl
      | 1 => rfl
      | r + 2 => exact ih (r + 1) (by omega) (k + 1)

theorem attemptClearLoop_all_errors (commitSha : String) (st : RestoreStatus)
    (k remaining : Nat) :
    (attemptClearLoop commitSha (fun _ => none) st k remaining).polls =
      max remaining 1 := by
  induction remaining using Nat.strong_induction_on generalizing k with
  | _ remaining ih =>
    rw [attemptClearLoop.eq_def]
    simp only [reduceCtorEq, if_false]
    match remaining with
    | 0 => rfl
    | 1 => rfl
    | r + 2 =>
      have hih := ih (r + 1) (by omega) (k + 1)
      show (attemptClearLoop commitSha (fun _ => none) st (k + 1)
        (r + 1)).polls + 1 = max (r + 2) 1
      omega

/-- Counterexample to claim C5: with the default six attempts all
failing, the poll terminates and clears the `latestRestoredCommitSha`
markers, but `pendingRestoreSha` is left untouched, contrary to the
claim that it is cleared. -/
theorem poll_pendingRestoreSha_counterexample :
    (scheduleRestoreShaCleanup RESTORE_SHA_MAX_ATTEMPTS "c1" (fun _ => none)
        { emptyStatus with
            latestRestoredCommitSha := some "c1",
            latestRestoredCommitSetAt := some "t1",
            pendingRestoreSha := some "p1" }).state.pendingRestoreSha =
      some "p1" ∧
    (scheduleRestoreShaCleanup RESTORE_SHA_MAX_ATTEMPTS "c1" (fun _ => none)
        { emptyStatus with
            latestRestoredCommitSha := some "c1",
            latestRestoredCommitSetAt := some "t1",
            pendingRestoreSha := some "p1" }).state.latestRestoredCommitSha =
      none ∧
    some "p1" ≠ (none : Option String) := by
  refine ⟨rfl, rfl, by decide⟩

/-- Claim C5 (amended): the convergence poll makes at most
`maxAttempts` polls (default 6, minimum one) at the fixed default
interval of 10s; a transport error counts as a consumed attempt rather
than aborting (a run of nothing but transport errors still uses every
attempt and then stops); and on every path, success or timeout, the
final state is the input state with `latestRestoredCommitSha` and
`latestRestoredCommitSetAt` cleared — `pendingRestoreSha` is not
touched by this job. -/
theorem poll_terminates_and_clears_markers :
    RESTORE_SHA_MAX_ATTEMPTS = 6 ∧ RESTORE_SHA_POLL_INTERVAL_MS = 10000 ∧
    (∀ (maxAttempts : Nat) (sha : String) (heads : Nat → Option String)
        (st : RestoreStatus),
      (scheduleRestoreShaCleanup maxAttempts sha heads st).polls ≤
        max maxAttempts 1) ∧
    (∀ (sha : String) (heads : Nat → Option String) (st : RestoreStatus),
      (scheduleRestoreShaCleanup RESTORE_SHA_MAX_ATTEMPTS sha heads st).state =
        clearShaMarkers st ∧
      (scheduleRestoreShaCleanup RESTORE_SHA_MAX_ATTEMPTS sha heads
          st).state.pendingRestoreSha = st.pendingRestoreSha) ∧
    (∀ (maxAttempts : Nat) (sha : String) (st : RestoreStatus),
      (scheduleRestoreShaCleanup maxAttempts sha (fun _ => none) st).polls =
        max maxAttempts 1) := by
  refine ⟨rfl, rfl, ?_, ?_, ?_⟩
  · intro maxAttempts sha heads st
    exact attemptClearLoop_polls_le sha heads st 0 maxAttempts
  · intro sha heads st
    have h := attemptClearLoop_state sha heads st 0 RESTORE_SHA_MAX_ATTEMPTS
    refine ⟨h, ?_⟩
    rw [scheduleRestoreShaCleanup, h]
    rfl
  · intro maxAttempts sha st
    exact attemptClearLoop_all_errors sha st 0 maxAttempts

/-! ## Collaborator roster entries (shared by seed lock and registry) -/

/-- A stored collaborator entry. `id` is present when the entry has a
string id (in the resync payloads this is a local user id or a GitHub id
string); `githubId` is the GitHub id string when present. -/
structure Collaborator where
  id : Option String
  githubId : Option String
deriving DecidableEq

/-- JavaScript truthiness of an optional string field: null and the
empty string are falsy. -/
def jsTruthyStr : Option String → Bool
  | none => false
  | some s => s ≠ ""

/-! ## Seed lock coordinator, persisted variant (src/unnamed/part_007) -/

/-- The seed-lock-relevant fields of a status record, part_007. -/
structure SeedStatus where
  collaboratorIds : Option (List String)
  collaborators : List Collaborator
  seededAt : Option String
  seedLocked : Bool
  seedLockedBy : Option String
  seedLockedAt : Option String
deriving DecidableEq

/-- `isUserCollaborator` from part_007 lines 13-25: a falsy user id is
never a collaborator; otherwise the id must be in `collaboratorIds` or
match the `id` of a detailed collaborator entry. -/
def isUserCollaborator (st : SeedStatus) (userId : String) : Bool :=
  if userId = "" then false
  else
    (st.collaboratorIds.getD []).contains userId ||
      st.collaborators.any (fun e => e.id = some userId)

/-- Responses of the part_007 seed-lock POST path. -/
inductive SeedResponse where
  | notCollaborator (status : Nat) (error : String)
  | denied (status : Nat) (reason : String) (lockedBy : Option String)
  | granted (status : Nat)
deriving DecidableEq

/-- The POST branch of the part_007 handler, lines 91-127: after the
collaborator gate, an already seeded document is denied with
`already_seeded`, an existing lock is denied with `locked`, and
otherwise the persisted seed lock is taken. Returns the response and the
status record after the call. -/
def seedLockAcquire (st : SeedStatus) (userId : String) (nowIso : String) :
    SeedResponse × SeedStatus :=
  if ¬ isUserCollaborator st userId then
    (.notCollaborator 403 "not_collaborator", st)
  else if jsTruthyStr st.seededAt then
    (.denied 409 "already_seeded" none, st)
  else if st.seedLocked then
    (.denied 409 "locked" st.seedLockedBy, st)
  else
    (.granted 200,
      { st with
          seedLocked := true,
          seedLockedBy := some userId,
          seedLockedAt := some nowIso,
          seededAt := none })

/-- Claim C6: a seed-lock acquire on an already seeded document is
denied with reason `already_seeded` for every collaborator who asks,
the original seeder included, and the stored record is not changed. -/
theorem seed_acquire_already_seeded (st : SeedStatus) (userId nowIso : String)
    (hc : isUserCollaborator st userId = true)
    (hs : jsTruthyStr st.seededAt = true) :
    seedLockAcquire st userId nowIso = (.denied 409 "already_seeded" none, st) := by
  simp [seedLockAcquire, hc, hs]

/-- Witness for claim C6: the collaborator who performed the seeding
(the one that held the seed lock and released it, stamping `seededAt`)
is denied on a repeat acquire. -/
theorem seed_acquire_already_seeded_witness :
    seedLockAcquire
        { collaboratorIds := some ["u1", "u2"],
          collaborators := [{ id := some "u1", githubId := some "99" }],
          seededAt := some "2024-01-01T00:00:00.000Z",
          seedLocked := false, seedLockedBy := none, seedLockedAt := none }
        "u1" "2024-01-02T00:00:00.000Z" =
      (.denied 409 "already_seeded" none,
        { collaboratorIds := some ["u1", "u2"],
          collaborators := [{ id := some "u1", githubId := some "99" }],
          seededAt := some "2024-01-01T00:00:00.000Z",
          seedLocked := false, seedLockedBy := none, seedLockedAt := none }) :=
  seed_acquire_already_seeded _ "u1" _ (by decide) (by decide)

/-! ## Collaborator registry (src/unnamed/part_006 statusStore,
src/api/screenplays/save-lock.js) -/

/-- The collaborator fields of a status record. -/
structure CollabRecord where
  collaborators : List Collaborator
  collaboratorIds : Option (List String)
deriving DecidableEq

/-- `buildCollaboratorIds` from part_006 lines 153-160: trimmed string
ids of the entries, or null when none remain. -/
def buildCollaboratorIds (collaborators : List Collaborator) :
    Option (List String) :=
  let ids := (collaborators.map (fun e =>
    match e.id with
    | some s => s.trim
    | none => "")).filter (fun s => s ≠ "")
  if ids.isEmpty then none else some ids

/-- `updateCollaborators` from part_006 lines 144-151: stores the new
roster; the stored `collaboratorIds` is the explicitly supplied list if
one was passed, otherwise it is derived from the roster. -/
def updateCollaborators (rec : CollabRecord)
    (collaborators : List Collaborator)
    (explicitIds : Option (List String)) : CollabRecord :=
  let ids :=
    match explicitIds with
    | some l => some l
    | none => buildCollaboratorIds collaborators
  { rec with collaborators := collaborators, collaboratorIds := ids }

/-- `updateCollaboratorIds` from part_006 lines 162-168: stores the
given id list (null when empty) and leaves `collaborators` untouched. -/
def updateCollaboratorIds (rec : CollabRecord)
    (collaboratorIds : List String) : CollabRecord :=
  { rec with
      collaboratorIds :=
        if collaboratorIds.isEmpty then none else some collaboratorIds }

/-- `maybeAddCollaboratorFromToken` from
src/api/screenplays/save-lock.js lines 94-129, with the GitHub token
already validated to `githubUserId` (`none` models a missing token or a
failed validation). When the validated GitHub id matches a roster entry
by `githubId` (falling back to `id`) and the caller is not yet listed,
the caller id is appended to `collaboratorIds` via
`updateCollaboratorIds`. -/
def maybeAddCollaboratorFromToken (rec : CollabRecord) (userId : String)
    (githubUserId : Option String) : CollabRecord :=
  match githubUserId with
  | none => rec
  | some ghId =>
    if ghId = "" then rec
    else
      let isGithubCollaborator := rec.collaborators.any (fun e =>
        match e.githubId, e.id with
        | some g, _ => g ≠ "" && g = ghId
        | none, some i => i ≠ "" && i = ghId
        | none, none => false)
      if ¬ isGithubCollaborator then rec
      else
        let existingIds := rec.collaboratorIds.getD []
        if existingIds.contains userId then rec
        else updateCollaboratorIds rec (existingIds ++ [userId])

/-- Claimed invariant: every stored collaborator id has a matching
roster entry (so the set is re-derivable from the roster). -/
def idsCoveredByRoster (rec : CollabRecord) : Bool :=
  (rec.collaboratorIds.getD []).all (fun uid =>
    rec.collaborators.any (fun e => e.id = some uid))

/-- A record whose roster knows a GitHub collaborator only by GitHub id. -/
def githubOnlyRecord : CollabRecord :=
  { collaborators := [{ id := none, githubId := some "99" }],
    collaboratorIds := none }

/-- Counterexample to claim C7: the token-based addition path appends
the caller local user id to `collaboratorIds` although no roster entry
carries that id, so the stored set stops being re-derivable from
`collaborators`. -/
theorem collaboratorIds_drift_counterexample :
    idsCoveredByRoster githubOnlyRecord = true ∧
    maybeAddCollaboratorFromToken githubOnlyRecord "u1" (some "99") =
      { collaborators := [{ id := none, githubId := some "99" }],
        collaboratorIds := some ["u1"] } ∧
    idsCoveredByRoster
        (maybeAddCollaboratorFromToken githubOnlyRecord "u1" (some "99")) =
      false := by
  refine ⟨rfl, rfl, rfl⟩

/-- Claim C7 (amended): the roster resync (`updateCollaborators` with no
explicit id list) stores exactly the ids derived from the roster, and
`updateCollaboratorIds` never touches the roster; but the token-based
addition path writes `collaboratorIds` independently of `collaborators`,
so the stored ids are not always re-derivable from the roster. -/
theorem collaborator_ids_write_semantics :
    (∀ (rec : CollabRecord) (collabs : List Collaborator),
      (updateCollaborators rec collabs none).collaboratorIds =
        buildCollaboratorIds collabs ∧
      (updateCollaborators rec collabs none).collaborators = collabs) ∧
    (∀ (rec : CollabRecord) (ids : List String),
      (updateCollaboratorIds rec ids).collaborators = rec.collaborators) := by
  exact ⟨fun rec collabs => ⟨rfl, rfl⟩, fun rec ids => rfl⟩

/-! ## Status store (src/api/screenplays/statusStore.js) -/

/-- A persisted `screenplay_status` record. `recordId` is the backing
record id assigned by the store on creation; the synthetic default
object returned for a missing document has none. -/
structure StatusRecord where
  recordId : Option String
  screenplayId : String
  hp_restore_blocked : Bool
  hp_restore_blocked_at : Option String
  hp_restore_blocked_by : Option Actor
  latestRestoredCommitSha : Option String
  latestRestoredCommitSetAt : Option String
deriving DecidableEq

/-- The record store for the `screenplay_status` collection, in
insertion order. -/
abbrev StatusStore := List StatusRecord

/-- `getStatusRecord` from statusStore.js lines 41-57: a falsy id reads
nothing; otherwise the first record matching the exact-id filter, with
the 404 translated to null. A pure read. -/
def getStatusRecord (store : StatusStore) (screenplayId : String) :
    Option StatusRecord :=
  if screenplayId = "" then none
  else store.find? (fun r => r.screenplayId = screenplayId)

/-- The synthetic default object `readScreenplayStatus` returns for a
missing record, lines 76-85: not blocked, no restore markers. -/
def defaultStatus (screenplayId : String) : StatusRecord :=
  { recordId := none, screenplayId := screenplayId,
    hp_restore_blocked := false, hp_restore_blocked_at := none,
    hp_restore_blocked_by := none, latestRestoredCommitSha := none,
    latestRestoredCommitSetAt := none }

/-- `readScreenplayStatus` from statusStore.js lines 74-87, returning
the resulting record together with the store after the call. -/
def readScreenplayStatus (store : StatusStore) (screenplayId : String) :
    StatusRecord × StatusStore :=
  match getStatusRecord store screenplayId with
  | none => (defaultStatus screenplayId, store)
  | some r => (r, store)

/-- `ensureStatusRecord` from statusStore.js lines 59-72: return the
existing record, or create one with the blocked flag false and null
markers. `freshId` is the record id the store assigns on creation. -/
def ensureStatusRecord (store : StatusStore) (screenplayId freshId : String) :
    StatusRecord × StatusStore :=
  match getStatusRecord store screenplayId with
  | some r => (r, store)
  | none =>
    let r : StatusRecord :=
      { recordId := some freshId, screenplayId := screenplayId,
        hp_restore_blocked := false, hp_restore_blocked_at := none,
        hp_restore_blocked_by := none, latestRestoredCommitSha := none,
        latestRestoredCommitSetAt := none }
    (r, store ++ [r])

/-- `applyStatusUpdate` from statusStore.js lines 89-93: ensure the
record exists, then update it in place by record id. -/
def applyStatusUpdate (store : StatusStore) (screenplayId freshId : String)
    (patch : StatusRecord → StatusRecord) : StatusRecord × StatusStore :=
  let er := ensureStatusRecord store screenplayId freshId
  let updated := patch er.1
  (updated, er.2.map (fun x => if x.recordId = er.1.recordId then updated else x))

/-- Claim C9: reading the status of a document with no stored record
returns the default object (not blocked, no restore markers) and leaves
the store untouched; a record is created only by the mutating path,
where `ensureStatusRecord` appends a fresh record with the same default
coordination fields. -/
theorem read_status_creates_nothing :
    (∀ (store : StatusStore) (sid : String),
      (readScreenplayStatus store sid).2 = store) ∧
    (∀ (store : StatusStore) (sid : String),
      getStatusRecord store sid = none →
      (readScreenplayStatus store sid).1 = defaultStatus sid) ∧
    (∀ (store : StatusStore) (sid fid : String),
      getStatusRecord store sid = none →
      (ensureStatusRecord store sid fid).2 =
        store ++ [{ defaultStatus sid with recordId := some fid }]) ∧
    (∀ (store : StatusStore) (sid fid : String) (r : StatusRecord),
      getStatusRecord store sid = some r →
      (ensureStatusRecord store sid fid).2 = store) := by
  refine ⟨?_, ?_, ?_, ?_⟩
  · intro store sid
    unfold readScreenplayStatus
    cases getStatusRecord store sid <;> rfl
  · intro store sid h
    unfold readScreenplayStatus
    rw [h]
  · intro store sid fid h
    unfold ensureStatusRecord
    rw [h]
    rfl
  · intro store sid fid r h
    unfold ensureStatusRecord
    rw [h]

/-- Witness for claim C9 on a store holding one unrelated record: the
read of a missing document returns the default object and leaves the
store as it was, and the mutating path appends a record. -/
theorem read_status_creates_nothing_witness :
    (readScreenplayStatus
        [{ defaultStatus "other" with recordId := some "rec0" }] "scr_1").2 =
      [{ defaultStatus "other" with recordId := some "rec0" }] ∧
    (readScreenplayStatus
        [{ defaultStatus "other" with recordId := some "rec0" }] "scr_1").1 =
      defaultStatus "scr_1" ∧
    (ensureStatusRecord
        [{ defaultStatus "other" with recordId := some "rec0" }] "scr_1"
        "rec1").2 =
      [{ defaultStatus "other" with recordId := some "rec0" },
        { defaultStatus "scr_1" with recordId := some "rec1" }] :=
  ⟨read_status_creates_nothing.1
      [{ defaultStatus "other" with recordId := some "rec0" }] "scr_1",
    read_status_creates_nothing.2.1
      [{ defaultStatus "other" with recordId := some "rec0" }] "scr_1"
      (by decide),
    read_status_creates_nothing.2.2.1
      [{ defaultStatus "other" with recordId := some "rec0" }] "scr_1" "rec1"
      (by decide)⟩

end Fable
